import Mathlib

/-!
Verification development for the MEPs gifts register ETL pipeline
(src/main.py). The pipeline loads spreadsheet tables, filters artifact
rows, joins rows with links extracted from companion PDFs, and renders
one markdown document per row plus per-entity index documents.

The embedding mirrors src/main.py:
  - a cell of a pandas DataFrame is a Cell (text, number, datetime, or
    missing); Python float NaN, pandas NaT and None are all missing
    values and are modelled by Cell.empty;
  - a DataFrame row is an ordered association list of column name and
    Cell (pandas Series iteration order is column order);
  - pandas elementwise comparison (Series.eq) is cellEq: a missing value
    compares unequal to everything, including another missing value, and
    values of different types compare unequal;
  - fallible Python code (exceptions) is modelled with Except.
-/

/-- A single cell value of the loaded table.  Cell.empty stands for all
of pandas' missing values (float NaN, NaT, None). -/
inductive Cell where
  | text : String → Cell
  | num : Int → Cell
  | date : Nat → Cell
  | empty : Cell
deriving DecidableEq

/-- A row: ordered (column name, value) pairs, as iterated by
pandas Series.items in generate_markdown_gifts (src/main.py line 147). -/
abbrev Row := List (String × Cell)

/-- pandas elementwise equality used by the header-echo filter
(src/main.py line 89, x == header_row): missing values (NaN) never
compare equal, not even to another missing value; values of different
types compare unequal. -/
def cellEq : Cell → Cell → Bool
  | Cell.text a, Cell.text b => a == b
  | Cell.num a, Cell.num b => a == b
  | Cell.date a, Cell.date b => a == b
  | _, _ => false

/-- str(value) as used by Python f-strings for non-string cells
(src/main.py line 162).  A missing value prints as nan (float NaN; the
formatted date columns would print None, a distinction below the
resolution of this model and irrelevant to every claim).  Numeric
repr is abstracted to Int printing. -/
def cellLiteral : Cell → String
  | Cell.text s => s
  | Cell.num n => toString n
  | Cell.date d => toString d
  | Cell.empty => "nan"

/-- row[name] lookup on a pandas Series (first matching label). -/
def getCell (row : Row) (name : String) : Option Cell :=
  (row.find? (fun p => p.1 == name)).map (fun p => p.2)

/-- clean_text, src/main.py lines 20-34: replace every line feed and
carriage return with a space; only string values are changed. -/
def cleanTextStr (s : String) : String :=
  String.mk (s.data.map (fun c => if c == '\n' || c == '\r' then ' ' else c))

/-- clean_text lifted to a Cell (non-strings pass through unchanged). -/
def cleanTextCell : Cell → Cell
  | Cell.text s => Cell.text (cleanTextStr s)
  | c => c

/-- value.replace applied at src/main.py lines 152 and 157: escape each
embedded double quote as backslash quote. -/
def escapeQuotes : List Char → List Char
  | [] => []
  | c :: rest =>
    if c == '"' then '\\' :: '"' :: escapeQuotes rest
    else c :: escapeQuotes rest

def escapeQuotesStr (s : String) : String :=
  String.mk (escapeQuotes s.data)

/-- Python str.split on a single separator character: always returns at
least one (possibly empty) piece. -/
def splitDash : List Char → List (List Char)
  | [] => [[]]
  | c :: rest =>
    let r := splitDash rest
    if c == '-' then [] :: r
    else
      match r with
      | h :: t => (c :: h) :: t
      | [] => [[c]]

/-- The fixed 11-column schema assigned positionally at
src/main.py lines 65-69. -/
def columnNames : List String :=
  ["RegistrationNumber", "NameOfMEP", "Capacity", "NameOfDonor",
   "DescriptionOfGift", "EstimatedValue", "LinkToPhoto",
   "DateOfReception", "DateOfNotification", "Location", "Miscellaneous"]

/-- df.isna().sum(axis=1) for one row (src/main.py line 73). -/
def emptyCellCount (row : Row) : Nat :=
  (row.map Prod.snd).countP (fun c => c == Cell.empty)

/-- Count of non-missing cells in a row. -/
def nonEmptyCellCount (row : Row) : Nat :=
  (row.map Prod.snd).countP (fun c => !(c == Cell.empty))

/-- nan_threshold = total_columns - 2 (src/main.py lines 76-77). -/
def nanThreshold : Nat := columnNames.length - 2

/-- Sparse-row removal, src/main.py lines 71-83: drop every row whose
count of missing cells exceeds nan_threshold. -/
def sparseFilter (t : List Row) : List Row :=
  t.filter (fun r => !(decide (emptyCellCount r > nanThreshold)))

/-- all(x == header_row) for one row x against the template row
(src/main.py line 89).  pandas aligns the two Series on the shared
column labels, which here is positional alignment. -/
def rowAllEq (r template : Row) : Bool :=
  ((r.map Prod.snd).zip (template.map Prod.snd)).all (fun p => cellEq p.1 p.2)

/-- Header-echo removal, src/main.py lines 86-92: take df.iloc[0] as the
template and drop every row (the template included) that compares
cell-for-cell equal to it.  On an empty table df.iloc[0] raises
IndexError, which the enclosing try of load_excel_into_dataframe turns
into an empty table; observably the result is the empty table either
way, which is what the empty case returns. -/
def headerEchoFilter : List Row → List Row
  | [] => []
  | first :: rest =>
    (first :: rest).filter (fun r => !(rowAllEq r first))

/-!
Regex join-key extraction.  Python re.search scans start positions left
to right and the patterns below use a greedy digit run followed by
literal context, so a match at a position exists exactly when the
maximal digit run there is followed by the required context; the
matchers below implement that search directly.  All inputs of
extract_id are percent-encoded URLs, hence pure ASCII, so a Python
digit is an ASCII digit.
-/

/-- Maximal leading ASCII digit run and the remaining characters. -/
def splitDigits : List Char → List Char × List Char
  | [] => ([], [])
  | c :: rest =>
    if c.isDigit then
      let p := splitDigits rest
      (c :: p.1, p.2)
    else ([], c :: rest)

/-- The letter G, also lowercase when the pattern carries
re.IGNORECASE. -/
def isGChar (ci : Bool) (c : Char) : Bool :=
  c == 'G' || (ci && c == 'g')

/-- A separator of the character class underscore-or-hyphen. -/
def isSepChar (c : Char) : Bool :=
  c == '_' || c == '-'

/-- The context of the two patterns ending in a separator and two
digits: next characters are a separator and two ASCII digits. -/
def sep2 : List Char → Bool
  | a :: b :: c :: _ => isSepChar a && b.isDigit && c.isDigit
  | _ => false

/-- The context dot j p g of the jpg pattern, uppercase letters allowed
under re.IGNORECASE. -/
def jpgSuffix (ci : Bool) : List Char → Bool
  | a :: b :: c :: d :: _ =>
    a == '.' && (b == 'j' || (ci && b == 'J'))
      && (c == 'p' || (ci && c == 'P'))
      && (d == 'g' || (ci && d == 'G'))
  | _ => false

/-- Match of the pattern G digits separator digit digit anchored at the
head of the list; the captured group is the digit run. -/
def pat1At (ci : Bool) : List Char → Option String
  | [] => none
  | c :: rest =>
    if isGChar ci c then
      match splitDigits rest with
      | ([], _) => none
      | (ds, r) => if sep2 r then some (String.mk ds) else none
    else none

/-- Match of the pattern G digits anchored at the head of the list. -/
def pat2At (ci : Bool) : List Char → Option String
  | [] => none
  | c :: rest =>
    if isGChar ci c then
      match splitDigits rest with
      | ([], _) => none
      | (ds, _) => some (String.mk ds)
    else none

/-- Match of the pattern digits separator digit digit anchored at the
head of the list. -/
def pat3At : List Char → Option String
  | [] => none
  | c :: rest =>
    match splitDigits (c :: rest) with
    | ([], _) => none
    | (ds, r) => if sep2 r then some (String.mk ds) else none

/-- Match of the pattern digits dot j p g anchored at the head of the
list. -/
def pat4At (ci : Bool) : List Char → Option String
  | [] => none
  | c :: rest =>
    match splitDigits (c :: rest) with
    | ([], _) => none
    | (ds, r) => if jpgSuffix ci r then some (String.mk ds) else none

/-- re.search for the pattern G(digits)[underscore hyphen]digit digit:
leftmost match wins. -/
def searchPat1 (ci : Bool) : List Char → Option String
  | [] => none
  | c :: rest =>
    match pat1At ci (c :: rest) with
    | some g => some g
    | none => searchPat1 ci rest

/-- re.search for the pattern G(digits). -/
def searchPat2 (ci : Bool) : List Char → Option String
  | [] => none
  | c :: rest =>
    match pat2At ci (c :: rest) with
    | some g => some g
    | none => searchPat2 ci rest

/-- re.search for the pattern (digits)[underscore hyphen]digit digit. -/
def searchPat3 : List Char → Option String
  | [] => none
  | c :: rest =>
    match pat3At (c :: rest) with
    | some g => some g
    | none => searchPat3 rest

/-- re.search for the pattern (digits) dot jpg. -/
def searchPat4 (ci : Bool) : List Char → Option String
  | [] => none
  | c :: rest =>
    match pat4At ci (c :: rest) with
    | some g => some g
    | none => searchPat4 ci rest

/-- The loop of extract_id over its pattern list (src/main.py
lines 247-253): first pattern that matches supplies the result. -/
def firstMatch : List (List Char → Option String) → List Char → Option String
  | [], _ => none
  | p :: ps, s =>
    match p s with
    | some g => some g
    | none => firstMatch ps s

/-- extract_id, src/main.py lines 239-253: try the four patterns in
order, all under re.IGNORECASE, and return the first captured group of
the first pattern that matches; None when none match. -/
def extract_id (url : String) : Option String :=
  firstMatch
    [searchPat1 true, searchPat2 true, searchPat3, searchPat4 true]
    url.data

/-- The join-key extraction of the Table Loader (src/main.py
lines 100-106): Series.str.extract with the single case-sensitive
pattern G(digits)[hyphen underscore]digit digit, applied to the first
match per element; non-string cells give NaN, as does a string without
a match. -/
def extractRegId (row : Row) : Cell :=
  match getCell row "RegistrationNumber" with
  | some (Cell.text s) =>
    match searchPat1 false s.data with
    | some g => Cell.text g
    | none => Cell.empty
  | _ => Cell.empty

/-!
Table Loader (load_excel_into_dataframe, src/main.py lines 50-121).
The spreadsheet reader (pd.read_excel) and the datetime parser and
formatter (pd.to_datetime on non-datetime cells, Timestamp.strftime)
are external collaborators; the reader's outcome is passed in as an
Except value and the two datetime collaborators are passed in as
ExternalFns.
-/

/-- External collaborator functions of the loader: parseDate is
pd.to_datetime applied to one non-missing non-datetime cell (some
timestamp on success, none for an unparseable value, which
errors coerce turns into NaT), strftime is
Timestamp.strftime of the ISO-8601 format string. -/
structure ExternalFns where
  parseDate : Cell → Option Nat
  strftime : Nat → String

/-- pd.to_datetime with errors coerce on one cell (src/main.py
line 98): a datetime stays itself, a missing value becomes NaT, and
any other value is handed to the parser, NaT when unparseable. -/
def toDatetimeCell (ext : ExternalFns) : Cell → Cell
  | Cell.date d => Cell.date d
  | Cell.empty => Cell.empty
  | c =>
    match ext.parseDate c with
    | some d => Cell.date d
    | none => Cell.empty

/-- The two datetime columns of src/main.py line 96. -/
def datetimeColumns : List String := ["DateOfReception", "DateOfNotification"]

/-- format_datetime_to_iso8601, src/main.py lines 36-48, applied over a
datetime64 column: null becomes None (a missing value), a timestamp is
formatted by strftime. -/
def formatDatetimeCell (ext : ExternalFns) : Cell → Cell
  | Cell.date d => Cell.text (ext.strftime d)
  | _ => Cell.empty

/-- The datetime coercion step (src/main.py lines 95-98) on one row. -/
def coerceDates (ext : ExternalFns) (row : Row) : Row :=
  row.map (fun p =>
    if datetimeColumns.contains p.1 then (p.1, toDatetimeCell ext p.2) else p)

/-- The final per-column pass (src/main.py lines 109-115): the two
datetime64 columns are formatted to ISO strings, every other column is
cleaned with clean_text (a no-op on non-strings, so the behaviour on a
numeric-dtype column is unchanged). -/
def finalFormat (ext : ExternalFns) (row : Row) : Row :=
  row.map (fun p =>
    if datetimeColumns.contains p.1 then (p.1, formatDatetimeCell ext p.2)
    else (p.1, cleanTextCell p.2))

/-- The body of the try block of load_excel_into_dataframe applied to
the raw data rows (header already consumed by the reader): assign the
fixed schema, drop sparse rows, drop header echoes, coerce the two
datetime columns, append the Id column extracted from
RegistrationNumber, then clean text and format dates. -/
def processTable (ext : ExternalFns) (raws : List (List Cell)) : List Row :=
  let t0 := raws.map (fun r => columnNames.zip r)
  let t1 := sparseFilter t0
  let t2 := headerEchoFilter t1
  let t3 := t2.map (coerceDates ext)
  let t4 := t3.map (fun r => r ++ [("Id", extractRegId r)])
  t4.map (finalFormat ext)

/-- load_excel_into_dataframe, src/main.py lines 50-121: the reader's
outcome is the argument; any raised error is caught and yields the
empty table.  Assigning the 11 names (line 65) raises ValueError when
the sheet's width differs from 11, also yielding the empty table. -/
def load_excel_into_dataframe (ext : ExternalFns)
    (input : Except String (List (List Cell))) : List Row :=
  match input with
  | Except.error _ => []
  | Except.ok raws =>
    if raws.any (fun r => !(decide (r.length = columnNames.length))) then []
    else processTable ext raws

/-!
PDF link records and the Table-Link Joiner.
-/

/-- One row of the per-PDF DataFrame built at src/main.py line 300:
Id as returned by extract_id (None when no pattern matched) and the
percent-encoded URL. -/
structure LinkRecord where
  id : Option String
  url : String
deriving DecidableEq

/-- process_pdf_files' record construction for one PDF's URL list
(src/main.py lines 296-300). -/
def pdfRecords (urls : List String) : List LinkRecord :=
  urls.map (fun u => { id := extract_id u, url := u })

/-- The Id cell of a loaded row (the column appended at src/main.py
line 106). -/
def getIdCell (row : Row) : Cell :=
  match getCell row "Id" with
  | some c => c
  | none => Cell.empty

/-- Key equality of the hash join of df.merge on Id (src/main.py
line 219).  A missing key on the table side is a float NaN (from
Series.str.extract) while a missing key on the link side is a Python
None (from extract_id); NaN and None hash-compare unequal, and a
missing value matches no string, so a match needs a present, equal
string key on both sides. -/
def keyMatches (idCell : Cell) (linkId : Option String) : Bool :=
  match idCell, linkId with
  | Cell.text s, some t => s == t
  | _, _ => false

/-- Dropping a column from a row (df.drop(columns=[...]) at
src/main.py line 218). -/
def dropColumn (name : String) (row : Row) : Row :=
  row.filter (fun p => !(p.1 == name))

/-- df.merge(photo_links, on Id) at src/main.py line 219: an inner join
preserving left-row order, each left row paired with every matching
link record in link order; the record's URL becomes the new LinkToPhoto
column appended after the left columns.  The suffixes argument is moot
because the caller dropped the only overlapping non-key column. -/
def mergeOnId (t : List Row) (links : List LinkRecord) : List Row :=
  t.flatMap (fun row =>
    (links.filter (fun l => keyMatches (getIdCell row) l.id)).map
      (fun l => row ++ [("LinkToPhoto", Cell.text l.url)]))

/-!
Document Renderer (generate_markdown_gifts, src/main.py lines 123-169,
and generate_markdown_for_column_values, lines 171-192).
-/

/-- mapM over Except, written out so it unfolds structurally: the first
error aborts, mirroring an uncaught Python exception in a loop. -/
def mapExcept (f : α → Except String β) : List α → Except String (List β)
  | [] => Except.ok []
  | a :: as =>
    match f a with
    | Except.error e => Except.error e
    | Except.ok b =>
      match mapExcept f as with
      | Except.error e => Except.error e
      | Except.ok bs => Except.ok (b :: bs)

/-- One front-matter line of the gift document (src/main.py
lines 147-162).  For the two name columns the code calls value.replace
unconditionally, so a non-string value raises AttributeError; other
string values are quoted with escaped embedded quotes; any other value
is written unquoted via str. -/
def frontMatterLine (colName : String) (value : Cell) : Except String String :=
  if colName == "NameOfMEP" || colName == "NameOfDonor" then
    match value with
    | Cell.text s =>
      Except.ok (colName ++ ": \"[[" ++ escapeQuotesStr s ++ "]]\"")
    | _ => Except.error "AttributeError: replace on a non-string"
  else
    match value with
    | Cell.text s => Except.ok (colName ++ ": \"" ++ escapeQuotesStr s ++ "\"")
    | v => Except.ok (colName ++ ": " ++ cellLiteral v)

/-- The year and relative path computed at src/main.py lines 131-141:
year is 20 prefixed to the last hyphen-delimited segment of
RegistrationNumber, the file goes to year slash RegistrationNumber
dot md.  A missing column raises KeyError and a non-string value
raises AttributeError at the split call. -/
def giftRelativePath (row : Row) : Except String String :=
  match getCell row "RegistrationNumber" with
  | none => Except.error "KeyError: RegistrationNumber"
  | some (Cell.text reg) =>
    Except.ok (("20" ++ String.mk ((splitDash reg.data).getLastD []))
      ++ "/" ++ reg ++ ".md")
  | some _ => Except.error "AttributeError: split on a non-string"

/-- generate_markdown_gifts, src/main.py lines 123-169, as the pair of
relative path and file content it writes: the front-matter block
between the two delimiter lines, then the heading and the two body
lines, which print DescriptionOfGift, NameOfMEP and NameOfDonor via
str (KeyError when a column is missing). -/
def renderGift (row : Row) : Except String (String × String) :=
  match giftRelativePath row with
  | Except.error e => Except.error e
  | Except.ok path =>
    match mapExcept (fun p => frontMatterLine p.1 p.2) row with
    | Except.error e => Except.error e
    | Except.ok lines =>
      match getCell row "DescriptionOfGift", getCell row "NameOfMEP",
          getCell row "NameOfDonor" with
      | some d, some m, some n =>
        Except.ok (path,
          "---\n" ++ String.join (lines.map (fun l => l ++ "\n"))
            ++ "---\n\n"
            ++ "# " ++ cellLiteral d ++ "\n\n"
            ++ "Received by: " ++ cellLiteral m ++ "\n"
            ++ "From: " ++ cellLiteral n ++ "\n")
      | _, _, _ => Except.error "KeyError: body column missing"

/-- The filename sanitization of generate_markdown_for_column_values
(src/main.py line 184): slash and backslash become hyphens. -/
def sanitizeFilename (s : String) : String :=
  String.mk (s.data.map (fun c => if c == '/' || c == '\\' then '-' else c))

/-- One index document (src/main.py lines 182-190): path under the
given fixed root, content a single heading. -/
def renderIndex (root : String) (value : Cell) : String × String :=
  (root ++ "/" ++ sanitizeFilename (cellLiteral value ++ ".md"),
   "# " ++ cellLiteral value ++ "\n\n" ++ "\n")

/-- Series.dropna().unique() used at src/main.py lines 226 and 231:
the non-missing values of a column in order of first occurrence,
duplicates removed. -/
def uniqueAux : List Cell → List Cell → List Cell
  | [], acc => acc.reverse
  | c :: rest, acc =>
    if acc.contains c then uniqueAux rest acc
    else uniqueAux rest (c :: acc)

def uniqueNonNull (t : List Row) (col : String) : List Cell :=
  uniqueAux
    (t.filterMap (fun row =>
      match getCell row col with
      | some Cell.empty => none
      | some c => some c
      | none => none))
    []

/-!
Pipeline Driver (process_excel_files, src/main.py lines 194-236).
-/

/-- One spreadsheet file of the batch: the reader's outcome for it and
the link records of the PDF with the same basename, when one exists. -/
structure FileInput where
  readResult : Except String (List (List Cell))
  pdfLinks : Option (List LinkRecord)

/-- The body of the per-file loop of process_excel_files (src/main.py
lines 210-236) as the list of documents (full path and content) it
writes: an empty loaded table skips the file; otherwise the table is
joined with the PDF links when present, then every row is rendered as a
gift document and the distinct names of the two entity columns as index
documents under the fixed roots meps and donors.  An exception inside
rendering propagates. -/
def processOneFile (ext : ExternalFns) (outDir : String) (f : FileInput) :
    Except String (List (String × String)) :=
  let df := load_excel_into_dataframe ext f.readResult
  if df.isEmpty then Except.ok []
  else
    let df2 :=
      match f.pdfLinks with
      | some links => mergeOnId (df.map (dropColumn "LinkToPhoto")) links
      | none => df
    match mapExcept renderGift df2 with
    | Except.error e => Except.error e
    | Except.ok gifts =>
      Except.ok
        ((gifts.map (fun g => (outDir ++ "/" ++ g.1, g.2)))
          ++ (uniqueNonNull df2 "NameOfMEP").map (renderIndex "meps")
          ++ (uniqueNonNull df2 "NameOfDonor").map (renderIndex "donors"))

/-- process_excel_files over the batch, in directory order; a file
whose rendering raises terminates the whole batch, a file whose load
failed contributes nothing and the batch continues. -/
def process_excel_files (ext : ExternalFns) (outDir : String) :
    List FileInput → Except String (List (String × String))
  | [] => Except.ok []
  | f :: rest =>
    match processOneFile ext outDir f with
    | Except.error e => Except.error e
    | Except.ok docs =>
      match process_excel_files ext outDir rest with
      | Except.error e => Except.error e
      | Except.ok more => Except.ok (docs ++ more)

/-!
Concrete example inputs used by counterexamples and witnesses.
-/

/-- A row whose 11 cells are all non-missing text. -/
def fullTextRow : Row := columnNames.zip (List.replicate 11 (Cell.text "x"))

/-- A row with one missing cell and ten non-missing text cells. -/
def emptyFirstRow : Row :=
  columnNames.zip (Cell.empty :: List.replicate 10 (Cell.text "x"))

/-- A loaded row whose Id could not be extracted (NaN join key). -/
def noIdRow : Row := [("Id", Cell.empty)]

/-- A PDF link record whose Id could not be extracted (None key). -/
def linkNone : LinkRecord := { id := none, url := "u" }

/-- The name O'Brien "Pat" (apostrophe and embedded double quotes),
written out by character code. -/
def obrienPat : String :=
  String.mk ['O', Char.ofNat 39, 'B', 'r', 'i', 'e', 'n', ' ',
             Char.ofNat 34, 'P', 'a', 't', Char.ofNat 34]

/-- The rendered front-matter line for obrienPat in the NameOfMEP
column: the double-bracket wrapper inside quotes, embedded quotes
escaped with a backslash. -/
def obrienLine : String :=
  String.mk (['N', 'a', 'm', 'e', 'O', 'f', 'M', 'E', 'P', ':', ' ',
              Char.ofNat 34, '[', '[',
              'O', Char.ofNat 39, 'B', 'r', 'i', 'e', 'n', ' ',
              Char.ofNat 92, Char.ofNat 34, 'P', 'a', 't',
              Char.ofNat 92, Char.ofNat 34, ']', ']', Char.ofNat 34])

/-!
Helper lemmas.
-/

theorem cellEq_self_of_ne_empty (c : Cell) (h : c ≠ Cell.empty) :
    cellEq c c = true := by
  cases c with
  | text s => simp [cellEq]
  | num n => simp [cellEq]
  | date d => simp [cellEq]
  | empty => exact absurd rfl h

theorem cellEq_empty_right (c : Cell) : cellEq c Cell.empty = false := by
  cases c <;> rfl

theorem cellEq_empty_left (c : Cell) : cellEq Cell.empty c = false := by
  cases c <;> rfl

theorem zipAll_self_of_ne_empty (l : List Cell) (h : ∀ c ∈ l, c ≠ Cell.empty) :
    (l.zip l).all (fun p => cellEq p.1 p.2) = true := by
  induction l with
  | nil => rfl
  | cons c l ih =>
    simp only [List.zip_cons_cons, List.all_cons, Bool.and_eq_true]
    exact ⟨cellEq_self_of_ne_empty c (h c (by simp)),
           ih (fun x hx => h x (by simp [hx]))⟩

theorem rowAllEq_self (f : Row) (h : ∀ c ∈ f.map Prod.snd, c ≠ Cell.empty) :
    rowAllEq f f = true :=
  zipAll_self_of_ne_empty (f.map Prod.snd) h

theorem zipAll_false_of_empty_mem (as bs : List Cell)
    (hlen : as.length = bs.length) (hb : Cell.empty ∈ bs) :
    (as.zip bs).all (fun p => cellEq p.1 p.2) = false := by
  induction bs generalizing as with
  | nil => cases hb
  | cons b bs ih =>
    cases as with
    | nil => simp at hlen
    | cons a as =>
      simp only [List.zip_cons_cons, List.all_cons, Bool.and_eq_false_iff]
      rcases List.mem_cons.mp hb with hb1 | hb2
      · exact Or.inl (hb1 ▸ cellEq_empty_right a)
      · exact Or.inr (ih as (by simpa using hlen) hb2)

theorem rowAllEq_false_of_empty_template (r f : Row)
    (hlen : r.length = f.length) (hf : Cell.empty ∈ f.map Prod.snd) :
    rowAllEq r f = false :=
  zipAll_false_of_empty_mem (r.map Prod.snd) (f.map Prod.snd)
    (by simpa using hlen) hf

theorem headerEchoFilter_id_of_empty_in_template (f : Row) (rest : List Row)
    (hf : Cell.empty ∈ f.map Prod.snd)
    (hlen : ∀ r ∈ rest, r.length = f.length) :
    headerEchoFilter (f :: rest) = f :: rest := by
  show (f :: rest).filter (fun r => !(rowAllEq r f)) = f :: rest
  apply List.filter_eq_self.mpr
  intro r hr
  rcases List.mem_cons.mp hr with h1 | h2
  · simp [h1, rowAllEq_false_of_empty_template f f rfl hf]
  · simp [rowAllEq_false_of_empty_template r f (hlen r h2) hf]

theorem mapExcept_error_of_mem (f : α → Except String β) (l : List α) (a : α)
    (ha : a ∈ l) (e : String) (hf : f a = Except.error e) :
    ∃ e2, mapExcept f l = Except.error e2 := by
  induction l with
  | nil => cases ha
  | cons x l ih =>
    rcases List.mem_cons.mp ha with h1 | h2
    · subst h1
      exact ⟨e, by simp [mapExcept, hf]⟩
    · cases hx : f x with
      | error e3 => exact ⟨e3, by simp [mapExcept, hx]⟩
      | ok b =>
        obtain ⟨e2, h2'⟩ := ih h2
        exact ⟨e2, by simp [mapExcept, hx, h2']⟩

/-!
Claim theorems.
-/

/-- C7: for every table with the fixed 11-column schema, the sparse-row
step of the Row Filter removes exactly those rows whose count of empty
cells exceeds 9 (the column count minus 2); in particular a row with at
most one non-empty cell out of 11 is excluded and a row with three or
more non-empty cells is kept by this step. -/
theorem sparseFilter_threshold_spec (t : List Row) (r : Row)
    (hmem : r ∈ t) (hlen : r.length = 11) :
    (r ∈ sparseFilter t ↔ emptyCellCount r ≤ 9)
    ∧ (nonEmptyCellCount r ≤ 1 → r ∉ sparseFilter t)
    ∧ (3 ≤ nonEmptyCellCount r → r ∈ sparseFilter t) := by
  have hth : nanThreshold = 9 := by decide
  have hmemf : r ∈ sparseFilter t ↔ emptyCellCount r ≤ 9 := by
    simp [sparseFilter, List.mem_filter, hmem, hth, Nat.not_lt]
  have hsum : emptyCellCount r + nonEmptyCellCount r = 11 := by
    have h := List.length_eq_countP_add_countP
      (l := r.map Prod.snd) (p := fun c => c == Cell.empty)
    simp only [List.length_map, hlen] at h
    have hpe : (fun a : Cell => decide (¬(a == Cell.empty) = true))
        = (fun a : Cell => !(a == Cell.empty)) := by
      funext a
      cases ha : a == Cell.empty <;> simp [ha]
    rw [emptyCellCount, nonEmptyCellCount, ← hpe]
    exact h.symm
  refine ⟨hmemf, ?_, ?_⟩
  · intro h1
    rw [hmemf]
    omega
  · intro h3
    rw [hmemf]
    omega

/-- C7 witness: concrete rows at the threshold boundary. -/
theorem sparseFilter_threshold_spec_witness :
    (fullTextRow ∈ sparseFilter [fullTextRow] ↔ emptyCellCount fullTextRow ≤ 9)
    ∧ columnNames.zip (List.replicate 11 Cell.empty)
        ∉ sparseFilter [columnNames.zip (List.replicate 11 Cell.empty)]
    ∧ emptyFirstRow ∈ sparseFilter [emptyFirstRow] := by
  refine ⟨(sparseFilter_threshold_spec _ _ (by decide) (by decide)).1, ?_, ?_⟩
  · exact (sparseFilter_threshold_spec
      [columnNames.zip (List.replicate 11 Cell.empty)]
      (columnNames.zip (List.replicate 11 Cell.empty))
      (by decide) (by decide)).2.1 (by decide)
  · exact (sparseFilter_threshold_spec [emptyFirstRow] emptyFirstRow
      (by decide) (by decide)).2.2 (by decide)

/-- C2 counterexample: a table whose single remaining row after
sparse-row removal has all 11 cells non-empty.  The header-echo step
compares the template row with itself, every cell compares equal, and
the template row is discarded — the Row Filter's output is empty, so
the first remaining row is not retained. -/
theorem headerEcho_drops_full_template_cex :
    sparseFilter [fullTextRow] = [fullTextRow]
    ∧ headerEchoFilter (sparseFilter [fullTextRow]) = [] := by decide

/-- C2 amended: the first remaining row is retained iff it contains at
least one empty cell.  When every cell of the template row is
non-empty, the row compares equal to itself and header-echo removal
discards it, leaving exactly the other rows that do not match it; when
the template row has an empty cell, that cell compares equal to
nothing, so the whole table (template included) passes through
unchanged. -/
theorem headerEcho_template_retention_iff (f : Row) (rest : List Row) :
    ((∀ c ∈ f.map Prod.snd, c ≠ Cell.empty) →
      headerEchoFilter (f :: rest) = rest.filter (fun r => !(rowAllEq r f)))
    ∧ (Cell.empty ∈ f.map Prod.snd →
      (∀ r ∈ rest, r.length = f.length) →
      headerEchoFilter (f :: rest) = f :: rest) := by
  constructor
  · intro hne
    show (f :: rest).filter (fun r => !(rowAllEq r f))
        = rest.filter (fun r => !(rowAllEq r f))
    simp [List.filter_cons, rowAllEq_self f hne]
  · intro hf hlen
    exact headerEchoFilter_id_of_empty_in_template f rest hf hlen

/-- C2 amended witness: both branches at concrete tables. -/
theorem headerEcho_template_retention_iff_witness :
    headerEchoFilter [fullTextRow] = []
    ∧ headerEchoFilter [emptyFirstRow, emptyFirstRow]
        = [emptyFirstRow, emptyFirstRow] := by
  constructor
  · exact ((headerEcho_template_retention_iff fullTextRow []).1
      (by decide)).trans (by decide)
  · exact (headerEcho_template_retention_iff emptyFirstRow [emptyFirstRow]).2
      (by decide) (by decide)

/-- C3 counterexample: a table whose first and second rows are
identical across all 11 columns but share one empty cell.  The claim
says the duplicate second row is excluded; in fact the empty cell never
compares equal, so neither row is removed and the duplicate stays in
the output. -/
theorem headerEcho_identical_with_empty_kept_cex :
    sparseFilter [emptyFirstRow, emptyFirstRow]
        = [emptyFirstRow, emptyFirstRow]
    ∧ headerEchoFilter [emptyFirstRow, emptyFirstRow]
        = [emptyFirstRow, emptyFirstRow]
    ∧ (headerEchoFilter [emptyFirstRow, emptyFirstRow]).count emptyFirstRow
        = 2 := by decide

/-- C3 amended: every row whose cells are identical to the first
remaining row's cells with all of them non-empty is removed by
header-echo removal (a duplicate that shares an empty cell with the
template is kept, because an empty cell never compares equal). -/
theorem headerEcho_removes_nonempty_duplicates (f : Row) (rest : List Row)
    (r : Row) (_hmem : r ∈ rest)
    (hdup : r.map Prod.snd = f.map Prod.snd)
    (hne : ∀ c ∈ f.map Prod.snd, c ≠ Cell.empty) :
    r ∉ headerEchoFilter (f :: rest) := by
  have hall : rowAllEq r f = true := by
    rw [rowAllEq, hdup]
    exact zipAll_self_of_ne_empty (f.map Prod.snd) hne
  show r ∉ (f :: rest).filter (fun x => !(rowAllEq x f))
  intro hr
  have := (List.mem_filter.mp hr).2
  simp [hall] at this

/-- C3 amended witness: a second row identical to a fully non-empty
first row is excluded from the output. -/
theorem headerEcho_removes_nonempty_duplicates_witness :
    fullTextRow ∉ headerEchoFilter [fullTextRow, fullTextRow] :=
  headerEcho_removes_nonempty_duplicates fullTextRow [fullTextRow]
    fullTextRow (by decide) (by decide) (by decide)

/-- C10: in the header-echo check an empty cell never compares equal to
any cell, another empty cell included; consequently, for every table
whose first remaining row contains at least one empty cell, the
header-echo step removes no row at all — not a row cell-for-cell
identical to the first row, nor the first row itself. -/
theorem headerEcho_empty_never_equal :
    (∀ c, cellEq Cell.empty c = false ∧ cellEq c Cell.empty = false)
    ∧ ∀ (f : Row) (rest : List Row), Cell.empty ∈ f.map Prod.snd →
        (∀ r ∈ rest, r.length = f.length) →
        headerEchoFilter (f :: rest) = f :: rest := by
  constructor
  · intro c
    exact ⟨cellEq_empty_left c, cellEq_empty_right c⟩
  · intro f rest hf hlen
    exact headerEchoFilter_id_of_empty_in_template f rest hf hlen

/-- C10 witness: the empty-empty comparison and a table whose rows are
identical with a shared empty cell, fully retained. -/
theorem headerEcho_empty_never_equal_witness :
    cellEq Cell.empty Cell.empty = false
    ∧ headerEchoFilter [emptyFirstRow, emptyFirstRow]
        = [emptyFirstRow, emptyFirstRow] :=
  ⟨(headerEcho_empty_never_equal.1 Cell.empty).1,
   headerEcho_empty_never_equal.2 emptyFirstRow [emptyFirstRow]
     (by decide) (by decide)⟩

/-- C4: the gift document's front matter renders each column as key
colon value, where a NameOfMEP or NameOfDonor text value is wrapped as
a quoted double-bracket reference with embedded double quotes escaped,
any other text value is double-quoted with the same escaping, and a
non-text value (number, missing) is emitted unquoted via str; in
particular NameOfMEP equal to O'Brien "Pat" renders with the
double-bracket wrapper and escaped internal quotes. -/
theorem frontMatter_rendering_rules (s : String) (n : Int) (c : String) :
    frontMatterLine "NameOfMEP" (Cell.text s)
        = Except.ok ("NameOfMEP: \"[[" ++ escapeQuotesStr s ++ "]]\"")
    ∧ frontMatterLine "NameOfDonor" (Cell.text s)
        = Except.ok ("NameOfDonor: \"[[" ++ escapeQuotesStr s ++ "]]\"")
    ∧ (c ≠ "NameOfMEP" → c ≠ "NameOfDonor" →
        frontMatterLine c (Cell.text s)
            = Except.ok (c ++ ": \"" ++ escapeQuotesStr s ++ "\"")
        ∧ frontMatterLine c (Cell.num n)
            = Except.ok (c ++ ": " ++ toString n)
        ∧ frontMatterLine c Cell.empty
            = Except.ok (c ++ ": " ++ cellLiteral Cell.empty))
    ∧ frontMatterLine "NameOfMEP" (Cell.text obrienPat)
        = Except.ok obrienLine := by
  refine ⟨by simp [frontMatterLine], by simp [frontMatterLine], ?_, by rfl⟩
  intro h1 h2
  have hcond : (c == "NameOfMEP" || c == "NameOfDonor") = false := by
    simp [h1, h2]
  refine ⟨?_, ?_, ?_⟩ <;> simp [frontMatterLine, hcond, cellLiteral]

/-- C4 witness: the rules applied at concrete column names and
values. -/
theorem frontMatter_rendering_rules_witness :
    frontMatterLine "Capacity" (Cell.text "x")
        = Except.ok "Capacity: \"x\""
    ∧ frontMatterLine "EstimatedValue" (Cell.num 5)
        = Except.ok "EstimatedValue: 5"
    ∧ frontMatterLine "Location" Cell.empty
        = Except.ok "Location: nan" := by
  have hc := (frontMatter_rendering_rules "x" 5 "Capacity").2.2.1
    (by decide) (by decide)
  have he := (frontMatter_rendering_rules "x" 5 "EstimatedValue").2.2.1
    (by decide) (by decide)
  have hl := (frontMatter_rendering_rules "x" 5 "Location").2.2.1
    (by decide) (by decide)
  exact ⟨hc.1.trans (by rfl), he.2.1.trans (by rfl),
         hl.2.2.trans (by rfl)⟩

/-- C5: for a row whose RegistrationNumber is a text value, the gift
document's relative path is the year directory, formed by prepending 20
to the last hyphen-delimited segment of RegistrationNumber, followed by
RegistrationNumber dot md. -/
theorem giftRelativePath_year_scheme (row : Row) (s : String)
    (h : getCell row "RegistrationNumber" = some (Cell.text s)) :
    giftRelativePath row
      = Except.ok (("20" ++ String.mk ((splitDash s.data).getLastD []))
          ++ "/" ++ s ++ ".md") := by
  simp [giftRelativePath, h]

/-- C5 witness: RegistrationNumber G12-23 yields the path
2023/G12-23.md. -/
theorem giftRelativePath_year_scheme_witness :
    giftRelativePath [("RegistrationNumber", Cell.text "G12-23")]
      = Except.ok "2023/G12-23.md" :=
  (giftRelativePath_year_scheme [("RegistrationNumber", Cell.text "G12-23")]
    "G12-23" (by decide)).trans (by rfl)

/-- C6: extract_id tests its four regex patterns in the fixed order
G digits separator two digits, G digits, digits separator two digits,
digits dot jpg (case-insensitively), returns the first captured group
of the first pattern that matches and none when no pattern matches; in
particular the URL https colon slash slash example.com slash photos
slash G45_01.jpg yields 45. -/
theorem extract_id_cascade_order (u : String) :
    (extract_id u =
      match searchPat1 true u.data with
      | some g => some g
      | none =>
        match searchPat2 true u.data with
        | some g => some g
        | none =>
          match searchPat3 u.data with
          | some g => some g
          | none => searchPat4 true u.data)
    ∧ extract_id "https://example.com/photos/G45_01.jpg" = some "45" := by
  constructor
  · cases h1 : searchPat1 true u.data <;>
      cases h2 : searchPat2 true u.data <;>
      cases h3 : searchPat3 u.data <;>
      cases h4 : searchPat4 true u.data <;>
      simp [extract_id, firstMatch, h1, h2, h3, h4]
  · decide

/-- C9: the gift renderer is partial — for every row carrying a
NameOfMEP or NameOfDonor cell that is not a text value (missing, a
number, a date), rendering the gift document fails with an error,
because the string escaping replace call is applied unconditionally to
these two columns; no document with a literal null value is emitted. -/
theorem renderGift_fails_on_nontext_names (row : Row) (v : Cell)
    (hmem : ("NameOfMEP", v) ∈ row ∨ ("NameOfDonor", v) ∈ row)
    (hv : ∀ s, v ≠ Cell.text s) :
    ∃ e, renderGift row = Except.error e := by
  have hline : ∀ name, (name = "NameOfMEP" ∨ name = "NameOfDonor") →
      frontMatterLine name v = Except.error "AttributeError: replace on a non-string" := by
    intro name hn
    have hcond : (name == "NameOfMEP" || name == "NameOfDonor") = true := by
      rcases hn with h | h <;> simp [h]
    cases v with
    | text s => exact absurd rfl (hv s)
    | num n => simp [frontMatterLine, hcond]
    | date d => simp [frontMatterLine, hcond]
    | empty => simp [frontMatterLine, hcond]
  have hmap : ∃ e2, mapExcept (fun p => frontMatterLine p.1 p.2) row
      = Except.error e2 := by
    rcases hmem with h | h
    · exact mapExcept_error_of_mem _ row ("NameOfMEP", v) h _
        (hline "NameOfMEP" (Or.inl rfl))
    · exact mapExcept_error_of_mem _ row ("NameOfDonor", v) h _
        (hline "NameOfDonor" (Or.inr rfl))
  obtain ⟨e2, he2⟩ := hmap
  rw [renderGift]
  cases hp : giftRelativePath row with
  | error e => exact ⟨e, rfl⟩
  | ok path =>
    rw [he2]
    exact ⟨e2, rfl⟩

/-- C9 witness: a row with a missing NameOfMEP cell fails to render. -/
theorem renderGift_fails_on_nontext_names_witness :
    ∃ e, renderGift [("RegistrationNumber", Cell.text "G1-23"),
                     ("NameOfMEP", Cell.empty)] = Except.error e :=
  renderGift_fails_on_nontext_names _ Cell.empty (Or.inl (by decide))
    (fun s h => Cell.noConfusion h)

/-- C1: the Table-Link Joiner's output is exactly the inner join — the
left rows whose Id matches some PDF link record's Id, each paired with
every matching record's URL as the new LinkToPhoto column; a row whose
Id is absent (the join key could not be extracted, a missing value)
matches no record, the records without an Id included, and so
contributes nothing to the joined output. -/
theorem mergeOnId_inner_join_spec (t : List Row) (links : List LinkRecord) :
    mergeOnId t links
      = (t.filter (fun row =>
            links.any (fun l => keyMatches (getIdCell row) l.id))).flatMap
          (fun row =>
            (links.filter (fun l => keyMatches (getIdCell row) l.id)).map
              (fun l => row ++ [("LinkToPhoto", Cell.text l.url)]))
    ∧ ∀ row : Row, getIdCell row = Cell.empty →
        ∀ l ∈ links, keyMatches (getIdCell row) l.id = false := by
  constructor
  · induction t with
    | nil => rfl
    | cons r t ih =>
      rw [mergeOnId, List.flatMap_cons, ← mergeOnId]
      cases hr : links.any (fun l => keyMatches (getIdCell r) l.id) with
      | true =>
        rw [List.filter_cons_of_pos (by simp [hr]), List.flatMap_cons, ih]
      | false =>
        have hnil : links.filter (fun l => keyMatches (getIdCell r) l.id)
            = [] := by
          simp only [List.any_eq_false] at hr
          exact List.filter_eq_nil_iff.mpr hr
        rw [List.filter_cons_of_neg (by simp [hr]), hnil]
        simpa using ih
  · intro row hrow l _
    rw [hrow]
    cases l.id <;> rfl

/-- C1 witness: a row with an absent Id joined against a record with an
absent Id yields nothing — NaN and None keys never match. -/
theorem mergeOnId_inner_join_spec_witness :
    mergeOnId [noIdRow] [linkNone] = []
    ∧ keyMatches (getIdCell noIdRow) linkNone.id = false :=
  ⟨((mergeOnId_inner_join_spec [noIdRow] [linkNone]).1).trans (by rfl),
   (mergeOnId_inner_join_spec [noIdRow] [linkNone]).2 noIdRow (by rfl)
     linkNone (by decide)⟩

/-- C8: a spreadsheet whose read or processing raises makes the Table
Loader return the empty table instead of propagating the error, and the
Pipeline Driver then skips that file's rendering and continues the
batch with the remaining files — the batch output is the same as if the
failing file were absent. -/
theorem load_failure_skips_file (ext : ExternalFns) (outDir : String)
    (e : String) (links : Option (List LinkRecord))
    (xs ys : List FileInput) :
    load_excel_into_dataframe ext (Except.error e) = []
    ∧ process_excel_files ext outDir
        (xs ++ { readResult := Except.error e, pdfLinks := links } :: ys)
      = process_excel_files ext outDir (xs ++ ys) := by
  refine ⟨rfl, ?_⟩
  induction xs with
  | nil =>
    show process_excel_files ext outDir
        ({ readResult := Except.error e, pdfLinks := links } :: ys)
      = process_excel_files ext outDir ys
    rw [process_excel_files]
    have hone : processOneFile ext outDir
        { readResult := Except.error e, pdfLinks := links }
        = Except.ok [] := rfl
    rw [hone]
    cases h : process_excel_files ext outDir ys <;> simp
  | cons x xs ih =>
    show process_excel_files ext outDir (x :: (xs ++ _ :: ys))
      = process_excel_files ext outDir (x :: (xs ++ ys))
    rw [process_excel_files, process_excel_files, ih]
